import Mathlib

/-!
Verification of the Yandex.Cloud Ansible inventory plugin
(`plugins/inventory/yandex_cloud.py`) against its specification.

The plugin is a single sequential routine: resolve credentials, exchange a
signed JWT assertion for an IAM token, walk clouds → folders → instances over
HTTP, and populate the Ansible inventory with groups and hosts.  The shallow
embedding below models the plugin's own code faithfully; the pieces of
behaviour that live in external libraries (Ansible's inventory object and
`to_safe_group_name`, the `requests` session, PyJWT's `jwt.encode`) are
modelled from the specification's description of them, each marked by a
doc comment starting with "Modelled from the spec".
-/

namespace YandexCloud

/-- Errors a run can end with.  `ansibleError` is the plugin's own
`raise AnsibleError(msg)`; `keyError`, `indexError` and `requestException`
model the raw Python exceptions (`dict[k]` misses, `list[0]` on an empty
list, and an uncaught `requests` transport exception respectively). -/
inductive PyErr : Type
  | ansibleError (msg : String)
  | keyError (key : String)
  | indexError
  | requestException (msg : String)
deriving DecidableEq, Repr

/-- The JWT claims set built by `get_iam_token`. -/
structure JwtPayload where
  aud : String
  iss : String
  iat : Nat
  exp : Nat
deriving DecidableEq, Repr

/-- Modelled from the spec: the signed assertion produced by PyJWT's
`jwt.encode` (library code, not part of this repository) is represented
symbolically by everything that determines it: the claims set, the signing
key, the algorithm name and the `kid` header hint. -/
structure SignedJwt where
  payload : JwtPayload
  key : String
  alg : String
  kid : String
deriving DecidableEq, Repr

/-- Modelled from the spec: `jwt.encode(payload, key, algorithm=alg,
headers={kid: ...})` packages its arguments into the signed assertion. -/
def jwt_encode (payload : JwtPayload) (key : String) (alg : String) (kid : String) : SignedJwt :=
  { payload := payload, key := key, alg := alg, kid := kid }

/-- An outbound HTTP request of the run, recorded in order of issue. -/
inductive Request : Type
  | post (url : String) (body : SignedJwt)
  | get (url : String)
deriving DecidableEq, Repr

/-- Modelled from the spec: the Ansible inventory object (owned by the
external tool, not part of this repository) — named groups, parent/child
edges (the child may be a group or a host), hosts, and host variables. -/
structure Inventory where
  groups : List String
  children : List (String × String)
  hosts : List String
  hostvars : List (String × String × String)
deriving DecidableEq, Repr

def Inventory.empty : Inventory :=
  { groups := [], children := [], hosts := [], hostvars := [] }

/-- Modelled from the spec: `InventoryData.add_group` — group creation is
idempotent, creating an existing group is a no-op. -/
def Inventory.add_group (inv : Inventory) (g : String) : Inventory :=
  if g ∈ inv.groups then inv else { inv with groups := inv.groups ++ [g] }

/-- Modelled from the spec: `InventoryData.add_child` — adding an existing
parent/child relationship is idempotent. -/
def Inventory.add_child (inv : Inventory) (parent child : String) : Inventory :=
  if (parent, child) ∈ inv.children then inv
  else { inv with children := inv.children ++ [(parent, child)] }

/-- Modelled from the spec: `InventoryData.add_host` — adding an existing
host is a no-op. -/
def Inventory.add_host (inv : Inventory) (h : String) : Inventory :=
  if h ∈ inv.hosts then inv else { inv with hosts := inv.hosts ++ [h] }

/-- Modelled from the spec: `InventoryData.set_variable` — records a host
variable, overwriting in place any previous value for the same host/key
pair. -/
def Inventory.set_variable (inv : Inventory) (host key value : String) : Inventory :=
  if inv.hostvars.any (fun e => e.1 = host && e.2.1 = key) then
    { inv with hostvars :=
        inv.hostvars.map (fun e => if e.1 = host && e.2.1 = key then (host, key, value) else e) }
  else { inv with hostvars := inv.hostvars ++ [(host, key, value)] }

/-- Modelled from the spec: Ansible's `to_safe_group_name` (library code, not
part of this repository) — display names are sanitized into identifiers safe
for use as group names: every character that is not alphanumeric or an
underscore is replaced by an underscore. -/
def to_safe_group_name (s : String) : String :=
  String.mk (s.data.map (fun c => if c.isAlphanum || c = '_' then c else '_'))

/-- The `primaryV4Address` object of a network interface. -/
structure PrimaryV4Address where
  address : Option String
deriving DecidableEq, Repr

/-- A network interface of an instance, as returned by the compute API.
Optional fields model keys that may be absent from the JSON object. -/
structure NetworkInterface where
  primaryV4Address : Option PrimaryV4Address
deriving DecidableEq, Repr

/-- A compute instance as returned by the instances endpoint.  `labels`
models the optional JSON object of key/value annotations; iterating it (as
the Python `for label in instance['labels']` does) yields its keys in
insertion order. -/
structure Instance where
  name : Option String
  networkInterfaces : Option (List NetworkInterface)
  labels : Option (List (String × String))
deriving DecidableEq, Repr

/-- Body of the clouds-by-id endpoint: `{name: ...}`. -/
structure CloudResp where
  name : Option String
deriving DecidableEq, Repr

/-- An element of the folders list: the plugin only reads `folder['id']`. -/
structure FolderStub where
  id : Option String
deriving DecidableEq, Repr

/-- Body of the folders-list endpoint: `{folders: [...]}`; the plugin uses
`response.get('folders', [])`, so the field is optional. -/
structure FoldersResp where
  folders : Option (List FolderStub)
deriving DecidableEq, Repr

/-- Body of the folder-by-id endpoint: `{name: ...}`. -/
structure FolderResp where
  name : Option String
deriving DecidableEq, Repr

/-- Body of the instances-list endpoint: `{instances: [...]}`; the plugin
uses `response.get('instances', [])`, so the field is optional. -/
structure InstancesResp where
  instances : Option (List Instance)
deriving DecidableEq, Repr

/-- Body of the token-exchange endpoint: the plugin reads
`response.json()['iamToken']`, so a missing field is a `KeyError`. -/
structure TokenResp where
  iamToken : Option String
deriving DecidableEq, Repr

/-- Outcome of one HTTP exchange, as the `requests` library presents it:
either a transport-level `RequestException`, or a response carrying a
status code and a decoded JSON body. -/
inductive HttpOutcome (β : Type) : Type
  | netError (msg : String)
  | response (status : Nat) (body : β)

/-- The remote API, one deterministic oracle per endpoint, keyed by the
resource id the plugin interpolates into the URL. -/
structure Api where
  tokenPost : SignedJwt → HttpOutcome TokenResp
  cloudGet : String → HttpOutcome CloudResp
  foldersGet : String → HttpOutcome FoldersResp
  folderGet : String → HttpOutcome FolderResp
  instancesGet : String → HttpOutcome InstancesResp

/-- The environment variables consulted by `parse` (`os.getenv` yields
`none` when the variable is unset). -/
structure Env where
  YC_SERVICE_ACCOUNT_ID : Option String
  YC_PRIVATE_KEY : Option String
  YC_KEY_ID : Option String

/-- The `api` section of the plugin's configuration file.  `none` models a
key that is absent from the YAML mapping (so `config['api'][k]` raises
`KeyError`). -/
structure ApiConfig where
  service_account_id : Option String
  private_key : Option String
  key_id : Option String
  cloud_ids : Option (List String)

/-- The configuration mapping returned by `_read_config_data`; the `api`
section itself may be absent. -/
structure Config where
  api : Option ApiConfig

/-- Mutable run state threaded through the traversal: the ordered log of
outbound HTTP requests, and the inventory being populated. -/
structure RunState where
  log : List Request
  inv : Inventory
deriving DecidableEq, Repr

def API_CLOUDS_URL : String :=
  "https://resource-manager.api.cloud.yandex.net/resource-manager/v1/clouds/"

def API_FOLDERS_URL : String :=
  "https://resource-manager.api.cloud.yandex.net/resource-manager/v1/folders/"

def API_INSTANCES_URL : String :=
  "https://compute.api.cloud.yandex.net/compute/v1/instances/"

/-- The token-exchange endpoint, used both as the POST target and as the
`aud` claim of the assertion. -/
def tokensURL : String := "https://iam.api.cloud.yandex.net/iam/v1/tokens"

/-- Character-level worker for `normalize_newlines`: each literal
backslash-n pair becomes a newline character. -/
def replaceBackslashN : List Char → List Char
  | [] => []
  | '\\' :: 'n' :: rest => '\n' :: replaceBackslashN rest
  | c :: rest => c :: replaceBackslashN rest

/-- The plugin's `private_key.replace(r'\n', '\n')`: every literal
backslash-n sequence in the private key is replaced by a real newline
(Python's `str.replace`, scanning left to right without overlap). -/
def normalize_newlines (s : String) : String := String.mk (replaceBackslashN s.data)

/-- Whether the character list `sub` occurs at the start of `l`. -/
def leadsWith : List Char → List Char → Bool
  | [], _ => true
  | _ :: _, [] => false
  | a :: as, b :: bs => a == b && leadsWith as bs

/-- Whether the character list `sub` occurs contiguously anywhere in
`hay`. -/
def hasSegment : List Char → List Char → Bool
  | [], sub => sub.isEmpty
  | c :: rest, sub => leadsWith sub (c :: rest) || hasSegment rest sub

/-- Whether the string `sub` occurs as a contiguous substring of `s`; used
to state that an error message carries the endpoint context. -/
def mentions (s sub : String) : Bool := hasSegment s.data sub.data

/-- Python's `os.getenv(var) or config['api'][key]`: a set, non-empty
environment value wins; an unset or empty one falls through to the
configuration lookup (which may itself raise `KeyError`). -/
def getCred (envVal : Option String) (cfgVal : Except PyErr String) : Except PyErr String :=
  match envVal with
  | some v => if v = "" then cfgVal else Except.ok v
  | none => cfgVal

/-- The lookup `config['api'][key]`: `KeyError 'api'` when the section is
missing, `KeyError key` when the key is missing from the section. -/
def cfg_lookup (config : Config) (f : ApiConfig → Option String) (key : String) :
    Except PyErr String :=
  match config.api with
  | none => Except.error (PyErr.keyError "api")
  | some a =>
    match f a with
    | none => Except.error (PyErr.keyError key)
    | some v => Except.ok v

/-- The lookup `config['api']['cloud_ids']`. -/
def cfg_cloud_ids (config : Config) : Except PyErr (List String) :=
  match config.api with
  | none => Except.error (PyErr.keyError "api")
  | some a =>
    match a.cloud_ids with
    | none => Except.error (PyErr.keyError "cloud_ids")
    | some v => Except.ok v

/-- `InventoryModule.get_iam_token`: build the claims set (issuer = service
account id, audience = token endpoint, issued-at = current time, expiry =
issued-at + 360), sign it with the newline-normalized private key under
PS256 with the key id as header hint, POST it as JSON to the token
endpoint, and read `iamToken` from the response body.  The POST is not
wrapped in any try/except and its status is never checked. -/
def get_iam_token (api : Api) (now : Nat) (service_account_id private_key key_id : String)
    (s : RunState) : Except PyErr String × RunState :=
  let payload : JwtPayload :=
    { aud := tokensURL, iss := service_account_id, iat := now, exp := now + 360 }
  let encoded_token := jwt_encode payload (normalize_newlines private_key) "PS256" key_id
  let s := { s with log := s.log ++ [Request.post tokensURL encoded_token] }
  match api.tokenPost encoded_token with
  | HttpOutcome.netError msg => (Except.error (PyErr.requestException msg), s)
  | HttpOutcome.response _ body =>
    match body.iamToken with
    | none => (Except.error (PyErr.keyError "iamToken"), s)
    | some t => (Except.ok t, s)

/-- Whether a status code counts as success for `raise_for_status`.
Modelled from the spec: the HTTP helper raises on any non-2xx status. -/
def is2xx (status : Nat) : Bool := 200 ≤ status && status < 300

/-- Modelled from the spec: the message of the error raised by
`response.raise_for_status` (requests-library code, not part of this
repository); per the spec it carries the endpoint context, i.e. the URL of
the failing request. -/
def httpErrorMessage (status : Nat) (url : String) : String :=
  (toString status ++ " Error for url: ") ++ url

/-- `InventoryModule.api_get_request`: issue a GET, `raise_for_status`, and
wrap any `RequestException` (transport error or status error alike) into
`AnsibleError(f"An error occurred: {err}")`; on success return the decoded
body. -/
def api_get_request {β : Type} (out : HttpOutcome β) (url : String) (s : RunState) :
    Except PyErr β × RunState :=
  let s := { s with log := s.log ++ [Request.get url] }
  match out with
  | HttpOutcome.netError msg =>
    (Except.error (PyErr.ansibleError ("An error occurred: " ++ msg)), s)
  | HttpOutcome.response status body =>
    if is2xx status then (Except.ok body, s)
    else
      (Except.error (PyErr.ansibleError ("An error occurred: " ++ httpErrorMessage status url)), s)

/-- `InventoryModule.get_cloud_name`: GET the cloud by id, read `name`,
sanitize it. -/
def get_cloud_name (api : Api) (cloud_id : String) (s : RunState) :
    Except PyErr String × RunState :=
  let cloud_url := API_CLOUDS_URL ++ cloud_id
  match api_get_request (api.cloudGet cloud_id) cloud_url s with
  | (Except.error e, s) => (Except.error e, s)
  | (Except.ok resp, s) =>
    match resp.name with
    | none => (Except.error (PyErr.keyError "name"), s)
    | some n => (Except.ok (to_safe_group_name n), s)

/-- `InventoryModule.get_folders`: GET the folder list of a cloud,
defaulting to `[]` when the `folders` field is absent. -/
def get_folders (api : Api) (cloud_id : String) (s : RunState) :
    Except PyErr (List FolderStub) × RunState :=
  let folders_url := API_FOLDERS_URL ++ ("?cloudId=" ++ cloud_id)
  match api_get_request (api.foldersGet cloud_id) folders_url s with
  | (Except.error e, s) => (Except.error e, s)
  | (Except.ok resp, s) => (Except.ok (resp.folders.getD []), s)

/-- `InventoryModule.get_folder_name`: GET the folder by id, read `name`,
sanitize it. -/
def get_folder_name (api : Api) (folder_id : String) (s : RunState) :
    Except PyErr String × RunState :=
  let folder_url := API_FOLDERS_URL ++ folder_id
  match api_get_request (api.folderGet folder_id) folder_url s with
  | (Except.error e, s) => (Except.error e, s)
  | (Except.ok resp, s) =>
    match resp.name with
    | none => (Except.error (PyErr.keyError "name"), s)
    | some n => (Except.ok (to_safe_group_name n), s)

/-- `InventoryModule.get_instances`: GET the instance list of a folder,
defaulting to `[]` when the `instances` field is absent. -/
def get_instances (api : Api) (folder_id : String) (s : RunState) :
    Except PyErr (List Instance) × RunState :=
  let instances_url := API_INSTANCES_URL ++ ("?folderId=" ++ folder_id)
  match api_get_request (api.instancesGet folder_id) instances_url s with
  | (Except.error e, s) => (Except.error e, s)
  | (Except.ok resp, s) => (Except.ok (resp.instances.getD []), s)

/-- `InventoryModule.create_cloud_group`. -/
def Inventory.create_cloud_group (inv : Inventory) (cloud_name : String) : Inventory :=
  inv.add_group cloud_name

/-- `InventoryModule.create_folder_group`: create the folder group and make
it a child of the cloud group. -/
def Inventory.create_folder_group (inv : Inventory) (folder_name cloud_name : String) :
    Inventory :=
  (inv.add_group folder_name).add_child cloud_name folder_name

/-- `InventoryModule.create_label_group`: create the label group and make it
a child of the folder group. -/
def Inventory.create_label_group (inv : Inventory) (label_group_folder folder_name : String) :
    Inventory :=
  (inv.add_group label_group_folder).add_child folder_name label_group_folder

/-- `InventoryModule.add_host_to_group`. -/
def Inventory.add_host_to_group (inv : Inventory) (host group : String) : Inventory :=
  inv.add_child group host

/-- The label loop of `process_instance`: for each key of the labels
mapping, sanitize the key, create the group `<folder>_<sanitized-key>` as a
child of the folder group, and add the host to it. -/
def apply_labels (folder_name host : String) (labels : List (String × String))
    (inv : Inventory) : Inventory :=
  match labels with
  | [] => inv
  | kv :: rest =>
    let label := to_safe_group_name kv.1
    let label_group_folder := folder_name ++ ("_" ++ label)
    apply_labels folder_name host rest
      ((inv.create_label_group label_group_folder folder_name).add_host_to_group
        host label_group_folder)

/-- `InventoryModule.process_instance`: read the instance name and the
address of the first network interface's primary IPv4 address (raw
`KeyError`/`IndexError` when absent), add the host with its
`ansible_host` variable, then either populate label groups (when the
`labels` key is present) or attach the host directly to the folder
group. -/
def process_instance (inst : Instance) (folder_name : String) (inv : Inventory) :
    Except PyErr Inventory :=
  match inst.name with
  | none => Except.error (PyErr.keyError "name")
  | some name =>
    match inst.networkInterfaces with
    | none => Except.error (PyErr.keyError "networkInterfaces")
    | some [] => Except.error PyErr.indexError
    | some (ni :: _) =>
      match ni.primaryV4Address with
      | none => Except.error (PyErr.keyError "primaryV4Address")
      | some pv =>
        match pv.address with
        | none => Except.error (PyErr.keyError "address")
        | some ip =>
          let inv := (inv.add_host name).set_variable name "ansible_host" ip
          match inst.labels with
          | some labels => Except.ok (apply_labels folder_name name labels inv)
          | none => Except.ok (inv.add_host_to_group name folder_name)

/-- The instance loop of `parse`: process each instance in order, stopping
at the first error (the partial inventory built so far is kept). -/
def process_instances (instances : List Instance) (folder_name : String) (inv : Inventory) :
    Except PyErr Unit × Inventory :=
  match instances with
  | [] => (Except.ok (), inv)
  | inst :: rest =>
    match process_instance inst folder_name inv with
    | Except.error e => (Except.error e, inv)
    | Except.ok inv => process_instances rest folder_name inv

/-- The folder loop of `parse`: for each folder read its id, fetch and
sanitize its name, create its group under the cloud group, fetch its
instances and process them. -/
def process_folders (api : Api) (folders : List FolderStub) (cloud_name : String)
    (s : RunState) : Except PyErr Unit × RunState :=
  match folders with
  | [] => (Except.ok (), s)
  | folder :: rest =>
    match folder.id with
    | none => (Except.error (PyErr.keyError "id"), s)
    | some folder_id =>
      match get_folder_name api folder_id s with
      | (Except.error e, s) => (Except.error e, s)
      | (Except.ok folder_name, s) =>
        let s := { s with inv := s.inv.create_folder_group folder_name cloud_name }
        match get_instances api folder_id s with
        | (Except.error e, s) => (Except.error e, s)
        | (Except.ok instances, s) =>
          match process_instances instances folder_name s.inv with
          | (Except.error e, inv) => (Except.error e, { s with inv := inv })
          | (Except.ok _, inv) => process_folders api rest cloud_name { s with inv := inv }

/-- The cloud loop of `parse`: for each configured cloud id fetch and
sanitize the cloud name, create its group, fetch its folders and process
them. -/
def process_clouds (api : Api) (cloud_ids : List String) (s : RunState) :
    Except PyErr Unit × RunState :=
  match cloud_ids with
  | [] => (Except.ok (), s)
  | cloud_id :: rest =>
    match get_cloud_name api cloud_id s with
    | (Except.error e, s) => (Except.error e, s)
    | (Except.ok cloud_name, s) =>
      let s := { s with inv := s.inv.create_cloud_group cloud_name }
      match get_folders api cloud_id s with
      | (Except.error e, s) => (Except.error e, s)
      | (Except.ok folders, s) =>
        match process_folders api folders cloud_name s with
        | (Except.error e, s) => (Except.error e, s)
        | (Except.ok _, s) => process_clouds api rest s

/-- `InventoryModule.parse`: resolve the three credentials (environment
first, configuration fallback, raising `AnsibleError` on an empty value),
exchange the signed assertion for an IAM token, read `cloud_ids` from the
configuration and walk the hierarchy.  Returns the outcome together with
the final run state (request log and inventory). -/
def parse (env : Env) (config : Config) (api : Api) (now : Nat) :
    Except PyErr Unit × RunState :=
  let s : RunState := { log := [], inv := Inventory.empty }
  match getCred env.YC_SERVICE_ACCOUNT_ID
      (cfg_lookup config ApiConfig.service_account_id "service_account_id") with
  | Except.error e => (Except.error e, s)
  | Except.ok service_account_id =>
    if service_account_id = "" then
      (Except.error (PyErr.ansibleError "Service account ID not found"), s)
    else
      match getCred env.YC_PRIVATE_KEY
          (cfg_lookup config ApiConfig.private_key "private_key") with
      | Except.error e => (Except.error e, s)
      | Except.ok private_key =>
        if private_key = "" then
          (Except.error (PyErr.ansibleError "Private key not found"), s)
        else
          match getCred env.YC_KEY_ID (cfg_lookup config ApiConfig.key_id "key_id") with
          | Except.error e => (Except.error e, s)
          | Except.ok key_id =>
            if key_id = "" then
              (Except.error (PyErr.ansibleError "Key id not found"), s)
            else
              match get_iam_token api now service_account_id private_key key_id s with
              | (Except.error e, s) => (Except.error e, s)
              | (Except.ok iam_token, s) =>
                if iam_token = "" then
                  (Except.error (PyErr.ansibleError "IAM token not found"), s)
                else
                  match cfg_cloud_ids config with
                  | Except.error e => (Except.error e, s)
                  | Except.ok cloud_ids => process_clouds api cloud_ids s

/-- The groups a given child (host or group) is a direct member of: the
parents of all parent/child edges whose child is the given name. -/
def Inventory.parentsOf (inv : Inventory) (child : String) : List String :=
  (inv.children.filter (fun e => e.2 == child)).map Prod.fst

/-- A credential lookup that found nothing usable: either the lookup raised
(missing configuration key) or it produced the empty string. -/
def credBad (r : Except PyErr String) : Prop :=
  (∃ e, r = Except.error e) ∨ r = Except.ok ""

/-- A well-formed instance named `vm-01` carrying the labels mapping
`{env: prod, tier: front}`. -/
def labeledInstance : Instance :=
  { name := some "vm-01"
  , networkInterfaces := some [{ primaryV4Address := some { address := some "10.0.0.5" } }]
  , labels := some [("env", "prod"), ("tier", "front")] }

/-- The inventory `process_instance` builds from `labeledInstance` under the
folder group `web`, starting from an empty inventory. -/
def labeledResult : Inventory :=
  { groups := ["web_env", "web_tier"]
  , children :=
      [("web", "web_env"), ("web_env", "vm-01"), ("web", "web_tier"), ("web_tier", "vm-01")]
  , hosts := ["vm-01"]
  , hostvars := [("vm-01", "ansible_host", "10.0.0.5")] }

/-- A well-formed instance whose `labels` field is present but empty. -/
def emptyLabelsInstance : Instance := { labeledInstance with labels := some [] }

/-- The inventory `process_instance` builds from `emptyLabelsInstance`
under the folder group `web`, starting from an empty inventory: the host is
added, but to no group at all. -/
def emptyLabelsResult : Inventory :=
  { groups := [], children := [], hosts := ["vm-01"]
  , hostvars := [("vm-01", "ansible_host", "10.0.0.5")] }

/-- An environment with all three credential variables set. -/
def envAllSet : Env :=
  { YC_SERVICE_ACCOUNT_ID := some "sa", YC_PRIVATE_KEY := some "pk", YC_KEY_ID := some "kid" }

/-- A configuration file without an `api` section. -/
def emptyConfig : Config := { api := none }

/-- An API whose token-exchange POST fails at the transport level and whose
read endpoints are unreachable. -/
def downApi : Api :=
  { tokenPost := fun _ => HttpOutcome.netError "boom"
  , cloudGet := fun _ => HttpOutcome.netError "unreachable"
  , foldersGet := fun _ => HttpOutcome.netError "unreachable"
  , folderGet := fun _ => HttpOutcome.netError "unreachable"
  , instancesGet := fun _ => HttpOutcome.netError "unreachable" }

/-- A scenario API: cloud `c1` (named `Prod Cloud`) has folders `f1` (named
`Web`) and `f2`, and the instances endpoint of `f1` answers with HTTP
status 500. -/
def scenarioApi : Api :=
  { tokenPost := fun _ => HttpOutcome.response 200 { iamToken := some "tok" }
  , cloudGet := fun cid =>
      if cid = "c1" then HttpOutcome.response 200 { name := some "Prod Cloud" }
      else HttpOutcome.netError "unknown cloud"
  , foldersGet := fun cid =>
      if cid = "c1" then
        HttpOutcome.response 200 { folders := some [{ id := some "f1" }, { id := some "f2" }] }
      else HttpOutcome.netError "unknown cloud"
  , folderGet := fun fid =>
      if fid = "f1" then HttpOutcome.response 200 { name := some "Web" }
      else HttpOutcome.netError "unknown folder"
  , instancesGet := fun fid =>
      if fid = "f1" then HttpOutcome.response 500 { instances := none }
      else HttpOutcome.netError "unknown folder" }

/-- An API whose token exchange always succeeds with token `tok` and whose
read endpoints are unreachable. -/
def tokenOnlyApi : Api :=
  { tokenPost := fun _ => HttpOutcome.response 200 { iamToken := some "tok" }
  , cloudGet := fun _ => HttpOutcome.netError "unreachable"
  , foldersGet := fun _ => HttpOutcome.netError "unreachable"
  , folderGet := fun _ => HttpOutcome.netError "unreachable"
  , instancesGet := fun _ => HttpOutcome.netError "unreachable" }

/-- A configuration listing only cloud `c1`. -/
def scenarioConfig : Config :=
  { api := some
      { service_account_id := none, private_key := none, key_id := none
      , cloud_ids := some ["c1"] } }

/-- The URL of the failing instances request of the scenario. -/
def scenarioFailingUrl : String := API_INSTANCES_URL ++ "?folderId=f1"

/-- The assertion `get_iam_token` signs in the scenario runs (environment
credentials, current time 0). -/
def scenarioJwt : SignedJwt :=
  jwt_encode { aud := tokensURL, iss := "sa", iat := 0, exp := 360 }
    (normalize_newlines "pk") "PS256" "kid"

/-- The full request log of the scenario run up to and including the
failing instances request. -/
def scenarioLog : List Request :=
  [ Request.post tokensURL scenarioJwt
  , Request.get (API_CLOUDS_URL ++ "c1")
  , Request.get (API_FOLDERS_URL ++ "?cloudId=c1")
  , Request.get (API_FOLDERS_URL ++ "f1")
  , Request.get scenarioFailingUrl ]

/-- The inventory at the moment the scenario run aborts: the cloud and
folder groups exist, no host was ever added, and folder `f2` was never
reached. -/
def scenarioInv : Inventory :=
  { groups := ["Prod_Cloud", "Web"]
  , children := [("Prod_Cloud", "Web")]
  , hosts := []
  , hostvars := [] }

/-! ### Helper lemmas about the inventory primitives -/

theorem add_group_children (inv : Inventory) (g : String) :
    (inv.add_group g).children = inv.children := by
  unfold Inventory.add_group; split <;> rfl

theorem add_group_mem_self (inv : Inventory) (g : String) :
    g ∈ (inv.add_group g).groups := by
  unfold Inventory.add_group; split
  · assumption
  · simp

theorem add_group_groups_mono {inv : Inventory} {x : String} (g : String)
    (h : x ∈ inv.groups) : x ∈ (inv.add_group g).groups := by
  unfold Inventory.add_group; split
  · exact h
  · simp [h]

theorem add_group_nodup {inv : Inventory} (g : String) (h : inv.groups.Nodup) :
    (inv.add_group g).groups.Nodup := by
  unfold Inventory.add_group; split
  · exact h
  · rename_i hg
    simp [List.nodup_append, h, hg]

theorem add_child_groups (inv : Inventory) (p c : String) :
    (inv.add_child p c).groups = inv.groups := by
  unfold Inventory.add_child; split <;> rfl

theorem add_child_hosts (inv : Inventory) (p c : String) :
    (inv.add_child p c).hosts = inv.hosts := by
  unfold Inventory.add_child; split <;> rfl

theorem add_child_mem_self (inv : Inventory) (p c : String) :
    (p, c) ∈ (inv.add_child p c).children := by
  unfold Inventory.add_child; split
  · assumption
  · simp

theorem add_child_children_mono {inv : Inventory} {e : String × String} (p c : String)
    (h : e ∈ inv.children) : e ∈ (inv.add_child p c).children := by
  unfold Inventory.add_child; split
  · exact h
  · simp [h]

theorem add_child_children_sub {inv : Inventory} {e : String × String} {p c : String}
    (h : e ∈ (inv.add_child p c).children) : e ∈ inv.children ∨ e = (p, c) := by
  unfold Inventory.add_child at h; split at h
  · exact Or.inl h
  · rcases List.mem_append.1 h with h | h
    · exact Or.inl h
    · simp at h; exact Or.inr h

theorem add_host_groups (inv : Inventory) (x : String) :
    (inv.add_host x).groups = inv.groups := by
  unfold Inventory.add_host; split <;> rfl

theorem add_host_children (inv : Inventory) (x : String) :
    (inv.add_host x).children = inv.children := by
  unfold Inventory.add_host; split <;> rfl

theorem set_variable_groups (inv : Inventory) (a b c : String) :
    (inv.set_variable a b c).groups = inv.groups := by
  unfold Inventory.set_variable; split <;> rfl

theorem set_variable_children (inv : Inventory) (a b c : String) :
    (inv.set_variable a b c).children = inv.children := by
  unfold Inventory.set_variable; split <;> rfl

theorem mem_parentsOf {inv : Inventory} {p child : String} :
    p ∈ inv.parentsOf child ↔ (p, child) ∈ inv.children := by
  unfold Inventory.parentsOf
  constructor
  · intro h
    rcases List.mem_map.1 h with ⟨e, he, hfst⟩
    rcases List.mem_filter.1 he with ⟨hmem, hsnd⟩
    have : e = (p, child) := by
      cases e; simp at hfst hsnd; simp [hfst, hsnd]
    rwa [this] at hmem
  · intro h
    exact List.mem_map.2 ⟨(p, child), List.mem_filter.2 ⟨h, by simp⟩, rfl⟩

/-! ### The HTTP getters leave the inventory untouched -/

theorem api_get_request_inv {β : Type} (out : HttpOutcome β) (url : String) (s : RunState) :
    (api_get_request out url s).2.inv = s.inv := by
  unfold api_get_request
  cases out with
  | netError msg => rfl
  | response status body => dsimp only; split <;> rfl

theorem get_cloud_name_inv (api : Api) (cid : String) (s : RunState) :
    (get_cloud_name api cid s).2.inv = s.inv := by
  unfold get_cloud_name
  dsimp only
  have h := api_get_request_inv (api.cloudGet cid) (API_CLOUDS_URL ++ cid) s
  rcases hh : api_get_request (api.cloudGet cid) (API_CLOUDS_URL ++ cid) s with ⟨r, s'⟩
  rw [hh] at h
  cases r with
  | error e => simpa using h
  | ok resp => cases hn : resp.name <;> simpa [hn] using h

theorem get_folders_inv (api : Api) (cid : String) (s : RunState) :
    (get_folders api cid s).2.inv = s.inv := by
  unfold get_folders
  dsimp only
  have h := api_get_request_inv (api.foldersGet cid) (API_FOLDERS_URL ++ ("?cloudId=" ++ cid)) s
  rcases hh : api_get_request (api.foldersGet cid) (API_FOLDERS_URL ++ ("?cloudId=" ++ cid)) s
    with ⟨r, s'⟩
  rw [hh] at h
  cases r with
  | error e => simpa using h
  | ok resp => simpa using h

theorem get_folder_name_inv (api : Api) (fid : String) (s : RunState) :
    (get_folder_name api fid s).2.inv = s.inv := by
  unfold get_folder_name
  dsimp only
  have h := api_get_request_inv (api.folderGet fid) (API_FOLDERS_URL ++ fid) s
  rcases hh : api_get_request (api.folderGet fid) (API_FOLDERS_URL ++ fid) s with ⟨r, s'⟩
  rw [hh] at h
  cases r with
  | error e => simpa using h
  | ok resp => cases hn : resp.name <;> simpa [hn] using h

theorem get_instances_inv (api : Api) (fid : String) (s : RunState) :
    (get_instances api fid s).2.inv = s.inv := by
  unfold get_instances
  dsimp only
  have h := api_get_request_inv (api.instancesGet fid) (API_INSTANCES_URL ++ ("?folderId=" ++ fid)) s
  rcases hh : api_get_request (api.instancesGet fid) (API_INSTANCES_URL ++ ("?folderId=" ++ fid)) s
    with ⟨r, s'⟩
  rw [hh] at h
  cases r with
  | error e => simpa using h
  | ok resp => simpa using h

theorem get_iam_token_inv (api : Api) (now : Nat) (sa pk kid : String) (s : RunState) :
    (get_iam_token api now sa pk kid s).2.inv = s.inv := by
  unfold get_iam_token
  dsimp only
  split
  · rfl
  · split <;> rfl

/-! ### Predicate preservation through the traversal -/

theorem apply_labels_preserve (P : Inventory → Prop)
    (hg : ∀ inv g, P inv → P (inv.add_group g))
    (hc : ∀ inv p c, P inv → P (inv.add_child p c))
    (folder host : String) :
    ∀ (labels : List (String × String)) (inv : Inventory),
      P inv → P (apply_labels folder host labels inv)
  | [], _, h => h
  | kv :: rest, inv, h => by
    unfold apply_labels
    exact apply_labels_preserve P hg hc folder host rest _
      (hc _ _ _ (hc _ _ _ (hg _ _ h)))

theorem process_instance_preserve (P : Inventory → Prop)
    (hg : ∀ inv g, P inv → P (inv.add_group g))
    (hc : ∀ inv p c, P inv → P (inv.add_child p c))
    (hh : ∀ inv x, P inv → P (inv.add_host x))
    (hv : ∀ inv a b c, P inv → P (inv.set_variable a b c))
    {inst : Instance} {folder : String} {inv inv' : Inventory}
    (h : process_instance inst folder inv = Except.ok inv') (hp : P inv) : P inv' := by
  unfold process_instance at h
  cases hn : inst.name with
  | none => simp [hn] at h
  | some name =>
    cases hni : inst.networkInterfaces with
    | none => simp [hn, hni] at h
    | some nis =>
      cases nis with
      | nil => simp [hn, hni] at h
      | cons ni rest =>
        cases hpv : ni.primaryV4Address with
        | none => simp [hn, hni, hpv] at h
        | some pv =>
          cases ha : pv.address with
          | none => simp [hn, hni, hpv, ha] at h
          | some ip =>
            cases hl : inst.labels with
            | some labels =>
              simp only [hn, hni, hpv, ha, hl, Except.ok.injEq] at h
              rw [← h]
              exact apply_labels_preserve P hg hc folder name labels _
                (hv _ _ _ _ (hh _ _ hp))
            | none =>
              simp only [hn, hni, hpv, ha, hl, Except.ok.injEq] at h
              rw [← h]
              exact hc _ _ _ (hv _ _ _ _ (hh _ _ hp))

theorem process_instances_preserve (P : Inventory → Prop)
    (hg : ∀ inv g, P inv → P (inv.add_group g))
    (hc : ∀ inv p c, P inv → P (inv.add_child p c))
    (hh : ∀ inv x, P inv → P (inv.add_host x))
    (hv : ∀ inv a b c, P inv → P (inv.set_variable a b c))
    (folder : String) :
    ∀ (instances : List Instance) (inv : Inventory),
      P inv → P (process_instances instances folder inv).2
  | [], _, h => h
  | inst :: rest, inv, h => by
    unfold process_instances
    cases hi : process_instance inst folder inv with
    | error e => exact h
    | ok inv2 =>
      exact process_instances_preserve P hg hc hh hv folder rest inv2
        (process_instance_preserve P hg hc hh hv hi h)

theorem process_folders_preserve (P : Inventory → Prop)
    (hg : ∀ inv g, P inv → P (inv.add_group g))
    (hc : ∀ inv p c, P inv → P (inv.add_child p c))
    (hh : ∀ inv x, P inv → P (inv.add_host x))
    (hv : ∀ inv a b c, P inv → P (inv.set_variable a b c))
    (api : Api) (cloud_name : String) :
    ∀ (folders : List FolderStub) (s : RunState),
      P s.inv → P (process_folders api folders cloud_name s).2.inv
  | [], _, h => h
  | folder :: rest, s, h => by
    unfold process_folders
    cases hid : folder.id with
    | none => exact h
    | some folder_id =>
      dsimp only
      have hfn := get_folder_name_inv api folder_id s
      rcases h1 : get_folder_name api folder_id s with ⟨r1, s1⟩
      rw [h1] at hfn
      cases r1 with
      | error e => exact hfn ▸ h
      | ok folder_name =>
        dsimp only
        have h2inv := get_instances_inv api folder_id
          { s1 with inv := s1.inv.create_folder_group folder_name cloud_name }
        rcases h2 : get_instances api folder_id
            { s1 with inv := s1.inv.create_folder_group folder_name cloud_name } with ⟨r2, s2⟩
        rw [h2] at h2inv
        have hPs1 : P (s1.inv.create_folder_group folder_name cloud_name) := by
          unfold Inventory.create_folder_group
          exact hc _ _ _ (hg _ _ (hfn ▸ h))
        cases r2 with
        | error e => exact h2inv ▸ hPs1
        | ok instances =>
          dsimp only
          have hPi := process_instances_preserve P hg hc hh hv folder_name instances s2.inv
            (h2inv ▸ hPs1)
          rcases h3 : process_instances instances folder_name s2.inv with ⟨r3, inv3⟩
          rw [h3] at hPi
          cases r3 with
          | error e => exact hPi
          | ok _ =>
            exact process_folders_preserve P hg hc hh hv api cloud_name rest
              { s2 with inv := inv3 } hPi

theorem process_clouds_preserve (P : Inventory → Prop)
    (hg : ∀ inv g, P inv → P (inv.add_group g))
    (hc : ∀ inv p c, P inv → P (inv.add_child p c))
    (hh : ∀ inv x, P inv → P (inv.add_host x))
    (hv : ∀ inv a b c, P inv → P (inv.set_variable a b c))
    (api : Api) :
    ∀ (cloud_ids : List String) (s : RunState),
      P s.inv → P (process_clouds api cloud_ids s).2.inv
  | [], _, h => h
  | cloud_id :: rest, s, h => by
    unfold process_clouds
    have hcn := get_cloud_name_inv api cloud_id s
    rcases h1 : get_cloud_name api cloud_id s with ⟨r1, s1⟩
    rw [h1] at hcn
    cases r1 with
    | error e => exact hcn ▸ h
    | ok cloud_name =>
      dsimp only
      have hPs1 : P (s1.inv.create_cloud_group cloud_name) := by
        unfold Inventory.create_cloud_group
        exact hg _ _ (hcn ▸ h)
      have h2inv := get_folders_inv api cloud_id
        { s1 with inv := s1.inv.create_cloud_group cloud_name }
      rcases h2 : get_folders api cloud_id
          { s1 with inv := s1.inv.create_cloud_group cloud_name } with ⟨r2, s2⟩
      rw [h2] at h2inv
      cases r2 with
      | error e => exact h2inv ▸ hPs1
      | ok folders =>
        dsimp only
        have hPf := process_folders_preserve P hg hc hh hv api cloud_name folders s2
          (h2inv ▸ hPs1)
        rcases h3 : process_folders api folders cloud_name s2 with ⟨r3, s3⟩
        rw [h3] at hPf
        cases r3 with
        | error e => exact hPf
        | ok _ => exact process_clouds_preserve P hg hc hh hv api rest s3 hPf

/-! ### Effect of the primitives on a host's group memberships -/

theorem parentsOf_add_group (inv : Inventory) (g child : String) :
    (inv.add_group g).parentsOf child = inv.parentsOf child := by
  unfold Inventory.parentsOf
  rw [add_group_children]

theorem parentsOf_add_host (inv : Inventory) (x child : String) :
    (inv.add_host x).parentsOf child = inv.parentsOf child := by
  unfold Inventory.parentsOf
  rw [add_host_children]

theorem parentsOf_set_variable (inv : Inventory) (a b c child : String) :
    (inv.set_variable a b c).parentsOf child = inv.parentsOf child := by
  unfold Inventory.parentsOf
  rw [set_variable_children]

theorem parentsOf_add_child_ne {c child : String} (inv : Inventory) (p : String)
    (h : c ≠ child) : (inv.add_child p c).parentsOf child = inv.parentsOf child := by
  unfold Inventory.add_child
  split
  · rfl
  · unfold Inventory.parentsOf
    simp [List.filter_append, h]

theorem parentsOf_add_child_eq {p child : String} {inv : Inventory}
    (h : (p, child) ∉ inv.children) :
    (inv.add_child p child).parentsOf child = inv.parentsOf child ++ [p] := by
  unfold Inventory.add_child
  rw [if_neg h]
  unfold Inventory.parentsOf
  simp [List.filter_append]

/-! ### Characterization of the label loop -/

theorem apply_labels_parentsOf (folder host : String) :
    ∀ (labels : List (String × String)) (inv : Inventory),
      (∀ kv ∈ labels, folder ++ ("_" ++ to_safe_group_name kv.1) ≠ host) →
      (labels.map (fun kv => folder ++ ("_" ++ to_safe_group_name kv.1))).Nodup →
      (∀ kv ∈ labels, (folder ++ ("_" ++ to_safe_group_name kv.1), host) ∉ inv.children) →
      (apply_labels folder host labels inv).parentsOf host =
        inv.parentsOf host ++ labels.map (fun kv => folder ++ ("_" ++ to_safe_group_name kv.1))
  | [], inv, _, _, _ => by simp [apply_labels]
  | kv :: rest, inv, hne, hnd, habs => by
    unfold apply_labels
    dsimp only
    unfold Inventory.create_label_group Inventory.add_host_to_group
    have hlg_ne_host : folder ++ ("_" ++ to_safe_group_name kv.1) ≠ host :=
      hne kv (List.mem_cons_self kv rest)
    have habs_head : (folder ++ ("_" ++ to_safe_group_name kv.1), host) ∉
        (((inv.add_group (folder ++ ("_" ++ to_safe_group_name kv.1))).add_child
          folder (folder ++ ("_" ++ to_safe_group_name kv.1)))).children := by
      intro hmem
      rcases add_child_children_sub hmem with hmem | heq
      · rw [add_group_children] at hmem
        exact habs kv (List.mem_cons_self kv rest) hmem
      · exact hlg_ne_host (by
          have := congrArg Prod.snd heq
          simpa using this.symm)
    have hnd' : ((folder ++ ("_" ++ to_safe_group_name kv.1)) ::
        rest.map (fun kv => folder ++ ("_" ++ to_safe_group_name kv.1))).Nodup := by
      simpa using hnd
    rw [apply_labels_parentsOf folder host rest _
        (fun kv2 h2 => hne kv2 (List.mem_cons_of_mem kv h2))
        hnd'.of_cons
        (by
          intro kv2 h2 hmem
          rcases add_child_children_sub hmem with hmem | heq
          · rcases add_child_children_sub hmem with hmem | heq
            · rw [add_group_children] at hmem
              exact habs kv2 (List.mem_cons_of_mem kv h2) hmem
            · exact hlg_ne_host (by
                have := congrArg Prod.snd heq
                simpa using this.symm)
          · have h1 := congrArg Prod.fst heq
            simp only at h1
            have hin : folder ++ ("_" ++ to_safe_group_name kv.1) ∈
                rest.map (fun kv => folder ++ ("_" ++ to_safe_group_name kv.1)) := by
              rw [← h1]
              exact List.mem_map_of_mem _ h2
            exact (List.nodup_cons.1 hnd').1 hin)]
    rw [parentsOf_add_child_eq habs_head]
    rw [parentsOf_add_child_ne _ _ hlg_ne_host, parentsOf_add_group]
    simp

theorem apply_labels_mem (folder host : String) :
    ∀ (labels : List (String × String)) (inv : Inventory) (kv : String × String),
      kv ∈ labels →
      (folder ++ ("_" ++ to_safe_group_name kv.1)) ∈
        (apply_labels folder host labels inv).groups ∧
      (folder, folder ++ ("_" ++ to_safe_group_name kv.1)) ∈
        (apply_labels folder host labels inv).children ∧
      (folder ++ ("_" ++ to_safe_group_name kv.1), host) ∈
        (apply_labels folder host labels inv).children
  | kv0 :: rest, inv, kv, hmem => by
    unfold apply_labels
    dsimp only
    rcases List.mem_cons.1 hmem with heq | htail
    · subst heq
      unfold Inventory.create_label_group Inventory.add_host_to_group
      apply apply_labels_preserve
        (fun v => (folder ++ ("_" ++ to_safe_group_name kv.1)) ∈ v.groups ∧
          (folder, folder ++ ("_" ++ to_safe_group_name kv.1)) ∈ v.children ∧
          (folder ++ ("_" ++ to_safe_group_name kv.1), host) ∈ v.children)
      · intro inv2 g hp
        exact ⟨add_group_groups_mono g hp.1,
          by rw [add_group_children]; exact hp.2.1,
          by rw [add_group_children]; exact hp.2.2⟩
      · intro inv2 p c hp
        exact ⟨by rw [add_child_groups]; exact hp.1,
          add_child_children_mono p c hp.2.1,
          add_child_children_mono p c hp.2.2⟩
      · refine ⟨?_, ?_, ?_⟩
        · rw [add_child_groups, add_child_groups]
          exact add_group_mem_self inv _
        · exact add_child_children_mono _ _ (add_child_mem_self _ _ _)
        · exact add_child_mem_self _ _ _
    · exact apply_labels_mem folder host rest _ kv htail

/-! ### Successful cloud-name fetch, and predicate preservation through `parse` -/

theorem get_cloud_name_ok {api : Api} {cid : String} {st : Nat} {resp : CloudResp}
    {nm : String} (s : RunState)
    (hresp : api.cloudGet cid = HttpOutcome.response st resp)
    (h2 : is2xx st = true) (hname : resp.name = some nm) :
    get_cloud_name api cid s =
      (Except.ok (to_safe_group_name nm),
       { s with log := s.log ++ [Request.get (API_CLOUDS_URL ++ cid)] }) := by
  unfold get_cloud_name api_get_request
  rw [hresp]
  simp [h2, hname]

theorem parse_inv_preserve (P : Inventory → Prop) (hP0 : P Inventory.empty)
    (hg : ∀ inv g, P inv → P (inv.add_group g))
    (hc : ∀ inv p c, P inv → P (inv.add_child p c))
    (hh : ∀ inv x, P inv → P (inv.add_host x))
    (hv : ∀ inv a b c, P inv → P (inv.set_variable a b c))
    (env : Env) (config : Config) (api : Api) (now : Nat) :
    P ((parse env config api now).2.inv) := by
  unfold parse
  dsimp only
  cases h1 : getCred env.YC_SERVICE_ACCOUNT_ID
      (cfg_lookup config ApiConfig.service_account_id "service_account_id") with
  | error e => exact hP0
  | ok sa =>
    dsimp only
    by_cases hsa : sa = ""
    · simp only [hsa, if_pos rfl]; exact hP0
    · rw [if_neg hsa]
      cases h2 : getCred env.YC_PRIVATE_KEY
          (cfg_lookup config ApiConfig.private_key "private_key") with
      | error e => exact hP0
      | ok pk =>
        dsimp only
        by_cases hpk : pk = ""
        · simp only [hpk, if_pos rfl]; exact hP0
        · rw [if_neg hpk]
          cases h3 : getCred env.YC_KEY_ID (cfg_lookup config ApiConfig.key_id "key_id") with
          | error e => exact hP0
          | ok kid =>
            dsimp only
            by_cases hkid : kid = ""
            · simp only [hkid, if_pos rfl]; exact hP0
            · rw [if_neg hkid]
              have htok := get_iam_token_inv api now sa pk kid
                { log := [], inv := Inventory.empty }
              rcases h4 : get_iam_token api now sa pk kid
                  { log := [], inv := Inventory.empty } with ⟨r4, s4⟩
              rw [h4] at htok
              dsimp only at htok
              cases r4 with
              | error e => exact htok ▸ hP0
              | ok iam =>
                dsimp only
                by_cases hiam : iam = ""
                · simp only [hiam, if_pos rfl]; exact htok ▸ hP0
                · rw [if_neg hiam]
                  cases h5 : cfg_cloud_ids config with
                  | error e => exact htok ▸ hP0
                  | ok cloud_ids =>
                    exact process_clouds_preserve P hg hc hh hv api cloud_ids s4
                      (htok ▸ hP0)

/-! ### Claims -/

/-- C4: for each of the three credentials, a non-empty environment value is
used and the configuration value is ignored; an unset or empty environment
variable falls back to the configuration value.  The last conjunct shows it
end to end: with all three environment variables set, the signed assertion
POSTed by `parse` is built from the environment values, regardless of the
(different) configuration values. -/
theorem c4_env_overrides_config :
    (∀ (v : String) (cfgVal : Except PyErr String), v ≠ "" →
      getCred (some v) cfgVal = Except.ok v) ∧
    (∀ cfgVal : Except PyErr String, getCred none cfgVal = cfgVal) ∧
    (∀ cfgVal : Except PyErr String, getCred (some "") cfgVal = cfgVal) ∧
    (∀ (api : Api) (now : Nat),
      (∀ j, api.tokenPost j = HttpOutcome.response 200 { iamToken := some "tok" }) →
      parse { YC_SERVICE_ACCOUNT_ID := some "env-sa", YC_PRIVATE_KEY := some "env-pk"
            , YC_KEY_ID := some "env-kid" }
        { api := some { service_account_id := some "cfg-sa", private_key := some "cfg-pk"
                      , key_id := some "cfg-kid", cloud_ids := some [] } } api now =
      (Except.ok (),
       { log := [Request.post tokensURL (jwt_encode
           { aud := tokensURL, iss := "env-sa", iat := now, exp := now + 360 }
           (normalize_newlines "env-pk") "PS256" "env-kid")]
       , inv := Inventory.empty })) := by
  refine ⟨?_, ?_, ?_, ?_⟩
  · intro v cfgVal hv
    simp [getCred, hv]
  · intro cfgVal; rfl
  · intro cfgVal; rfl
  · intro api now htok
    unfold parse get_iam_token
    simp [getCred, htok, cfg_cloud_ids, process_clouds]

/-- Witness for C4 at concrete inputs. -/
theorem c4_env_overrides_config_witness :
    getCred (some "x") (Except.ok "y") = Except.ok "x" ∧
    parse { YC_SERVICE_ACCOUNT_ID := some "env-sa", YC_PRIVATE_KEY := some "env-pk"
          , YC_KEY_ID := some "env-kid" }
      { api := some { service_account_id := some "cfg-sa", private_key := some "cfg-pk"
                    , key_id := some "cfg-kid", cloud_ids := some [] } } tokenOnlyApi 7 =
    (Except.ok (),
     { log := [Request.post tokensURL (jwt_encode
         { aud := tokensURL, iss := "env-sa", iat := 7, exp := 7 + 360 }
         (normalize_newlines "env-pk") "PS256" "env-kid")]
     , inv := Inventory.empty }) :=
  ⟨c4_env_overrides_config.1 "x" (Except.ok "y") (by decide),
   c4_env_overrides_config.2.2.2 tokenOnlyApi 7 (fun _ => rfl)⟩

/-- C5: the signed assertion's claims set has issuer = the service account
id, audience = the token-exchange endpoint URL, issued-at = the current
time, expiry = issued-at + 360 seconds; the key id is attached as the
header hint; the assertion is POSTed to the token-exchange endpoint; and
the `iamToken` field of the response body is the returned token. -/
theorem c5_assertion_claims (api : Api) (now : Nat) (sa pk kid : String) (s : RunState) :
    ∃ assertion : SignedJwt,
      (get_iam_token api now sa pk kid s).2.log =
        s.log ++ [Request.post tokensURL assertion] ∧
      assertion.payload.iss = sa ∧
      assertion.payload.aud = tokensURL ∧
      assertion.payload.iat = now ∧
      assertion.payload.exp = now + 360 ∧
      assertion.kid = kid ∧
      assertion.alg = "PS256" ∧
      assertion.key = normalize_newlines pk ∧
      (∀ (st : Nat) (body : TokenResp) (t : String),
        api.tokenPost assertion = HttpOutcome.response st body →
        body.iamToken = some t →
        (get_iam_token api now sa pk kid s).1 = Except.ok t) := by
  refine ⟨jwt_encode { aud := tokensURL, iss := sa, iat := now, exp := now + 360 }
    (normalize_newlines pk) "PS256" kid, ?_, rfl, rfl, rfl, rfl, rfl, rfl, rfl, ?_⟩
  · unfold get_iam_token
    dsimp only
    cases api.tokenPost (jwt_encode { aud := tokensURL, iss := sa, iat := now, exp := now + 360 }
        (normalize_newlines pk) "PS256" kid) with
    | netError m => rfl
    | response st body =>
      dsimp only
      cases body.iamToken <;> rfl
  · intro st body t hresp htokfield
    unfold get_iam_token
    dsimp only
    rw [hresp]
    dsimp only
    rw [htokfield]

/-- Witness for C5 at concrete inputs. -/
theorem c5_assertion_claims_witness :
    (get_iam_token tokenOnlyApi 0 "sa" "pk" "kid" { log := [], inv := Inventory.empty }).1 =
      Except.ok "tok" := by
  obtain ⟨a, hlog, hiss, haud, hiat, hexp, hkid, halg, hkey, hok⟩ :=
    c5_assertion_claims tokenOnlyApi 0 "sa" "pk" "kid" { log := [], inv := Inventory.empty }
  exact hok 200 { iamToken := some "tok" } "tok" rfl rfl

/-- C9: `process_instance` unconditionally indexes the first network
interface and its primary IPv4 address: a missing `networkInterfaces` key,
an empty interface list, or a first interface without
`primaryV4Address`/`address` makes it fail with a raw `KeyError` or
`IndexError` (never the `AnsibleError` domain error), and when all the
fields are present it succeeds. -/
theorem c9_first_interface_indexing (inst : Instance) (folder : String) (inv : Inventory)
    (nm : String) (hn : inst.name = some nm) :
    (inst.networkInterfaces = none →
      process_instance inst folder inv = Except.error (PyErr.keyError "networkInterfaces")) ∧
    (inst.networkInterfaces = some [] →
      process_instance inst folder inv = Except.error PyErr.indexError) ∧
    (∀ ni rest, inst.networkInterfaces = some (ni :: rest) → ni.primaryV4Address = none →
      process_instance inst folder inv = Except.error (PyErr.keyError "primaryV4Address")) ∧
    (∀ ni rest pv, inst.networkInterfaces = some (ni :: rest) →
      ni.primaryV4Address = some pv → pv.address = none →
      process_instance inst folder inv = Except.error (PyErr.keyError "address")) ∧
    (∀ ni rest pv ip, inst.networkInterfaces = some (ni :: rest) →
      ni.primaryV4Address = some pv → pv.address = some ip →
      ∃ inv2, process_instance inst folder inv = Except.ok inv2) := by
  refine ⟨?_, ?_, ?_, ?_, ?_⟩
  · intro hni; unfold process_instance; rw [hn, hni]
  · intro hni; unfold process_instance; rw [hn, hni]
  · intro ni rest hni hpv; unfold process_instance; rw [hn, hni]; dsimp only; rw [hpv]
  · intro ni rest pv hni hpv ha; unfold process_instance; rw [hn, hni]; dsimp only
    rw [hpv]; dsimp only; rw [ha]
  · intro ni rest pv ip hni hpv ha
    unfold process_instance
    rw [hn, hni]
    dsimp only
    rw [hpv]
    dsimp only
    rw [ha]
    dsimp only
    cases hl : inst.labels with
    | some labels => exact ⟨_, rfl⟩
    | none => exact ⟨_, rfl⟩

/-- Witness for C9 at a concrete instance with an empty interface list. -/
theorem c9_first_interface_indexing_witness :
    process_instance { name := some "vm", networkInterfaces := some [], labels := none }
      "web" Inventory.empty = Except.error PyErr.indexError :=
  (c9_first_interface_indexing
    { name := some "vm", networkInterfaces := some [], labels := none }
    "web" Inventory.empty "vm" rfl).2.1 rfl

/-- C3: if any one of the three credentials resolves to an absent or empty
value from both the environment and the configuration, `parse` raises an
error while the request log is still empty — before any network call, in
particular before the token-exchange POST. -/
theorem c3_missing_credential_aborts_before_network (env : Env) (config : Config)
    (api : Api) (now : Nat)
    (h : credBad (getCred env.YC_SERVICE_ACCOUNT_ID
          (cfg_lookup config ApiConfig.service_account_id "service_account_id")) ∨
         credBad (getCred env.YC_PRIVATE_KEY
          (cfg_lookup config ApiConfig.private_key "private_key")) ∨
         credBad (getCred env.YC_KEY_ID (cfg_lookup config ApiConfig.key_id "key_id"))) :
    ∃ e, parse env config api now =
      (Except.error e, { log := [], inv := Inventory.empty }) := by
  unfold parse
  dsimp only
  cases h1 : getCred env.YC_SERVICE_ACCOUNT_ID
      (cfg_lookup config ApiConfig.service_account_id "service_account_id") with
  | error e => exact ⟨e, rfl⟩
  | ok sa =>
    dsimp only
    by_cases hsa : sa = ""
    · exact ⟨PyErr.ansibleError "Service account ID not found", by rw [if_pos hsa]⟩
    · rw [if_neg hsa]
      cases h2 : getCred env.YC_PRIVATE_KEY
          (cfg_lookup config ApiConfig.private_key "private_key") with
      | error e => exact ⟨e, rfl⟩
      | ok pk =>
        dsimp only
        by_cases hpk : pk = ""
        · exact ⟨PyErr.ansibleError "Private key not found", by rw [if_pos hpk]⟩
        · rw [if_neg hpk]
          cases h3 : getCred env.YC_KEY_ID (cfg_lookup config ApiConfig.key_id "key_id") with
          | error e => exact ⟨e, rfl⟩
          | ok kid =>
            dsimp only
            by_cases hkid : kid = ""
            · exact ⟨PyErr.ansibleError "Key id not found", by rw [if_pos hkid]⟩
            · exfalso
              rcases h with hbad | hbad | hbad
              · rw [h1] at hbad
                rcases hbad with ⟨e, he⟩ | he
                · exact absurd he (by simp)
                · exact hsa (by injection he)
              · rw [h2] at hbad
                rcases hbad with ⟨e, he⟩ | he
                · exact absurd he (by simp)
                · exact hpk (by injection he)
              · rw [h3] at hbad
                rcases hbad with ⟨e, he⟩ | he
                · exact absurd he (by simp)
                · exact hkid (by injection he)

/-- Witness for C3: with an empty environment and an empty configuration
section, `parse` aborts with an empty request log. -/
theorem c3_missing_credential_aborts_before_network_witness :
    ∃ e, parse { YC_SERVICE_ACCOUNT_ID := none, YC_PRIVATE_KEY := none, YC_KEY_ID := none }
      { api := some { service_account_id := none, private_key := none, key_id := none
                    , cloud_ids := none } } downApi 0 =
      (Except.error e, { log := [], inv := Inventory.empty }) :=
  c3_missing_credential_aborts_before_network _ _ downApi 0
    (Or.inl (Or.inl ⟨PyErr.keyError "service_account_id", rfl⟩))

/-- C10: the `AnsibleError` domain error for a missing credential is raised
only when the resolved value is present but empty; when the environment
variable is unset and the configuration lacks the `api` section or the
specific key (`service_account_id`, `private_key`, `key_id`, `cloud_ids`),
`parse` instead fails with a raw `KeyError` naming the missing key. -/
theorem c10_keyerror_vs_domain_error :
    (∀ (e2 e3 : Option String) (api : Api) (now : Nat),
      parse { YC_SERVICE_ACCOUNT_ID := none, YC_PRIVATE_KEY := e2, YC_KEY_ID := e3 }
        { api := none } api now =
      (Except.error (PyErr.keyError "api"), { log := [], inv := Inventory.empty })) ∧
    (∀ (e2 e3 : Option String) (a : ApiConfig) (api : Api) (now : Nat),
      a.service_account_id = none →
      parse { YC_SERVICE_ACCOUNT_ID := none, YC_PRIVATE_KEY := e2, YC_KEY_ID := e3 }
        { api := some a } api now =
      (Except.error (PyErr.keyError "service_account_id"),
       { log := [], inv := Inventory.empty })) ∧
    (∀ (e2 e3 : Option String) (a : ApiConfig) (api : Api) (now : Nat),
      a.service_account_id = some "" →
      parse { YC_SERVICE_ACCOUNT_ID := none, YC_PRIVATE_KEY := e2, YC_KEY_ID := e3 }
        { api := some a } api now =
      (Except.error (PyErr.ansibleError "Service account ID not found"),
       { log := [], inv := Inventory.empty })) ∧
    (∀ (e3 : Option String) (a : ApiConfig) (api : Api) (now : Nat),
      a.private_key = none →
      parse { YC_SERVICE_ACCOUNT_ID := some "sa", YC_PRIVATE_KEY := none, YC_KEY_ID := e3 }
        { api := some a } api now =
      (Except.error (PyErr.keyError "private_key"), { log := [], inv := Inventory.empty })) ∧
    (∀ (a : ApiConfig) (api : Api) (now : Nat),
      a.key_id = none →
      parse { YC_SERVICE_ACCOUNT_ID := some "sa", YC_PRIVATE_KEY := some "pk"
            , YC_KEY_ID := none } { api := some a } api now =
      (Except.error (PyErr.keyError "key_id"), { log := [], inv := Inventory.empty })) ∧
    (∀ (a : ApiConfig) (api : Api) (now : Nat),
      a.cloud_ids = none →
      (∀ j, api.tokenPost j = HttpOutcome.response 200 { iamToken := some "tok" }) →
      parse { YC_SERVICE_ACCOUNT_ID := some "sa", YC_PRIVATE_KEY := some "pk"
            , YC_KEY_ID := some "kid" } { api := some a } api now =
      (Except.error (PyErr.keyError "cloud_ids"),
       { log := [Request.post tokensURL (jwt_encode
           { aud := tokensURL, iss := "sa", iat := now, exp := now + 360 }
           (normalize_newlines "pk") "PS256" "kid")]
       , inv := Inventory.empty })) := by
  refine ⟨?_, ?_, ?_, ?_, ?_, ?_⟩
  · intro e2 e3 api now
    simp [parse, getCred, cfg_lookup]
  · intro e2 e3 a api now ha
    simp [parse, getCred, cfg_lookup, ha]
  · intro e2 e3 a api now ha
    simp [parse, getCred, cfg_lookup, ha]
  · intro e3 a api now ha
    simp [parse, getCred, cfg_lookup, ha]
  · intro a api now ha
    simp [parse, getCred, cfg_lookup, ha]
  · intro a api now ha htok
    unfold parse get_iam_token
    simp [getCred, htok, cfg_cloud_ids, ha]

/-- Witness for C10 at concrete inputs. -/
theorem c10_keyerror_vs_domain_error_witness :
    parse { YC_SERVICE_ACCOUNT_ID := none, YC_PRIVATE_KEY := none, YC_KEY_ID := none }
      { api := some { service_account_id := none, private_key := none, key_id := none
                    , cloud_ids := none } } downApi 0 =
    (Except.error (PyErr.keyError "service_account_id"),
     { log := [], inv := Inventory.empty }) ∧
    parse { YC_SERVICE_ACCOUNT_ID := some "sa", YC_PRIVATE_KEY := some "pk"
          , YC_KEY_ID := some "kid" }
      { api := some { service_account_id := none, private_key := none, key_id := none
                    , cloud_ids := none } } tokenOnlyApi 0 =
    (Except.error (PyErr.keyError "cloud_ids"),
     { log := [Request.post tokensURL (jwt_encode
         { aud := tokensURL, iss := "sa", iat := 0, exp := 0 + 360 }
         (normalize_newlines "pk") "PS256" "kid")]
     , inv := Inventory.empty }) :=
  ⟨c10_keyerror_vs_domain_error.2.1 none none _ downApi 0 rfl,
   c10_keyerror_vs_domain_error.2.2.2.2.2 _ tokenOnlyApi 0 rfl (fun _ => rfl)⟩

/-- C1 counterexample: under folder group `web`, the instance with labels
`{env: prod, tier: front}` yields groups `web_env` and `web_tier` — the
label KEYS — not `web_prod` and `web_front` as the claim states (the Python
loop `for label in instance['labels']` iterates the mapping's keys). -/
theorem c1_label_value_counterexample :
    process_instance labeledInstance "web" Inventory.empty = Except.ok labeledResult ∧
    "web_env" ∈ labeledResult.groups ∧ "web_tier" ∈ labeledResult.groups ∧
    "web_prod" ∉ labeledResult.groups ∧ "web_front" ∉ labeledResult.groups := by
  refine ⟨rfl, ?_, ?_, ?_, ?_⟩ <;> decide

/-- C1 (amended): for every leaf instance carrying a labels mapping, the
group names created under the folder group use the sanitized label KEY as
the suffix: for each label entry, the group
`<folder>_<sanitized-label-key>` is created as a child of the folder group
and the host is added to it. -/
theorem c1_label_key_group_names (inst : Instance) (folder : String) (inv : Inventory)
    (nm : String) (ni : NetworkInterface) (rest : List NetworkInterface)
    (pv : PrimaryV4Address) (ip : String) (labels : List (String × String))
    (kv : String × String)
    (hn : inst.name = some nm) (hni : inst.networkInterfaces = some (ni :: rest))
    (hpv : ni.primaryV4Address = some pv) (ha : pv.address = some ip)
    (hl : inst.labels = some labels) (hkv : kv ∈ labels) :
    ∃ inv2, process_instance inst folder inv = Except.ok inv2 ∧
      (folder ++ ("_" ++ to_safe_group_name kv.1)) ∈ inv2.groups ∧
      (folder, folder ++ ("_" ++ to_safe_group_name kv.1)) ∈ inv2.children ∧
      (folder ++ ("_" ++ to_safe_group_name kv.1), nm) ∈ inv2.children := by
  unfold process_instance
  rw [hn, hni]
  dsimp only
  rw [hpv]
  dsimp only
  rw [ha]
  dsimp only
  rw [hl]
  exact ⟨_, rfl, apply_labels_mem folder nm labels _ kv hkv⟩

/-- Witness for the amended C1 at the concrete labelled instance. -/
theorem c1_label_key_group_names_witness :
    ∃ inv2, process_instance labeledInstance "web" Inventory.empty = Except.ok inv2 ∧
      ("web" ++ ("_" ++ to_safe_group_name "env")) ∈ inv2.groups ∧
      ("web", "web" ++ ("_" ++ to_safe_group_name "env")) ∈ inv2.children ∧
      ("web" ++ ("_" ++ to_safe_group_name "env"), "vm-01") ∈ inv2.children :=
  c1_label_key_group_names labeledInstance "web" Inventory.empty "vm-01"
    { primaryV4Address := some { address := some "10.0.0.5" } } []
    { address := some "10.0.0.5" } "10.0.0.5" [("env", "prod"), ("tier", "front")]
    ("env", "prod") rfl rfl rfl rfl rfl (by decide)

/-- C2 counterexample: an instance whose `labels` field is present but
empty is added to NO group at all (the plugin tests `'labels' in instance`,
not emptiness), contradicting the claim that it lands in exactly one
group. -/
theorem c2_empty_labels_counterexample :
    process_instance emptyLabelsInstance "web" Inventory.empty = Except.ok emptyLabelsResult ∧
    emptyLabelsResult.hosts = ["vm-01"] ∧
    emptyLabelsResult.parentsOf "vm-01" = [] :=
  ⟨rfl, rfl, rfl⟩

/-- C2 (amended): what decides the branch is the PRESENCE of the `labels`
key, not the number of labels.  If the key is absent, the host becomes a
child of exactly one group, the folder group; if the key is present, the
host becomes a child of exactly the groups `<folder>_<sanitized-key>`, one
per label entry (N of them when the sanitized names are distinct, and in
particular zero when the mapping is empty), and never a direct child of the
folder group. -/
theorem c2_group_membership_counts (inst : Instance) (folder : String) (inv : Inventory)
    (nm : String) (ni : NetworkInterface) (rest : List NetworkInterface)
    (pv : PrimaryV4Address) (ip : String)
    (hn : inst.name = some nm) (hni : inst.networkInterfaces = some (ni :: rest))
    (hpv : ni.primaryV4Address = some pv) (ha : pv.address = some ip)
    (hclean : inv.parentsOf nm = []) :
    (inst.labels = none →
      ∃ inv2, process_instance inst folder inv = Except.ok inv2 ∧
        inv2.parentsOf nm = [folder]) ∧
    (∀ labels, inst.labels = some labels →
      (labels.map (fun kv => folder ++ ("_" ++ to_safe_group_name kv.1))).Nodup →
      (∀ kv ∈ labels, folder ++ ("_" ++ to_safe_group_name kv.1) ≠ nm) →
      ∃ inv2, process_instance inst folder inv = Except.ok inv2 ∧
        inv2.parentsOf nm =
          labels.map (fun kv => folder ++ ("_" ++ to_safe_group_name kv.1)) ∧
        folder ∉ inv2.parentsOf nm) := by
  have hclean2 : ∀ p, (p, nm) ∉
      ((inv.add_host nm).set_variable nm "ansible_host" ip).children := by
    intro p hmem
    rw [set_variable_children, add_host_children] at hmem
    have : p ∈ inv.parentsOf nm := mem_parentsOf.2 hmem
    rw [hclean] at this
    exact absurd this (List.not_mem_nil p)
  have hbase : ((inv.add_host nm).set_variable nm "ansible_host" ip).parentsOf nm = [] := by
    rw [parentsOf_set_variable, parentsOf_add_host, hclean]
  constructor
  · intro hl
    unfold process_instance
    rw [hn, hni]
    dsimp only
    rw [hpv]
    dsimp only
    rw [ha]
    dsimp only
    rw [hl]
    refine ⟨_, rfl, ?_⟩
    unfold Inventory.add_host_to_group
    rw [parentsOf_add_child_eq (hclean2 folder), hbase]
    rfl
  · intro labels hl hnd hne
    unfold process_instance
    rw [hn, hni]
    dsimp only
    rw [hpv]
    dsimp only
    rw [ha]
    dsimp only
    rw [hl]
    refine ⟨_, rfl, ?_, ?_⟩
    · rw [apply_labels_parentsOf folder nm labels _ hne hnd
        (fun kv hkv => hclean2 (folder ++ ("_" ++ to_safe_group_name kv.1))), hbase]
      rfl
    · intro hmem
      rw [apply_labels_parentsOf folder nm labels _ hne hnd
        (fun kv hkv => hclean2 (folder ++ ("_" ++ to_safe_group_name kv.1))), hbase] at hmem
      rw [List.nil_append] at hmem
      rcases List.mem_map.1 hmem with ⟨kv, _, hkv⟩
      have hlen := congrArg String.length hkv
      have hone : ("_" : String).length = 1 := rfl
      rw [String.length_append, String.length_append, hone] at hlen
      omega

/-- Witness for the amended C2 at the concrete labelled instance. -/
theorem c2_group_membership_counts_witness :
    ∃ inv2, process_instance labeledInstance "web" Inventory.empty = Except.ok inv2 ∧
      inv2.parentsOf "vm-01" =
        [("env", "prod"), ("tier", "front")].map
          (fun kv => "web" ++ ("_" ++ to_safe_group_name kv.1)) ∧
      "web" ∉ inv2.parentsOf "vm-01" :=
  (c2_group_membership_counts labeledInstance "web" Inventory.empty "vm-01"
    { primaryV4Address := some { address := some "10.0.0.5" } } []
    { address := some "10.0.0.5" } "10.0.0.5" rfl rfl rfl rfl rfl).2
    [("env", "prod"), ("tier", "front")] rfl (by decide) (by decide)

/-! ### Substring facts for error-message statements -/

theorem leadsWith_refl : ∀ l : List Char, leadsWith l l = true
  | [] => rfl
  | c :: rest => by simp [leadsWith, leadsWith_refl rest]

theorem hasSegment_self (l : List Char) : hasSegment l l = true := by
  cases l with
  | nil => rfl
  | cons c rest =>
    unfold hasSegment
    simp [leadsWith_refl]

theorem hasSegment_append (sub : List Char) :
    ∀ (a b : List Char), hasSegment b sub = true → hasSegment (a ++ b) sub = true
  | [], _, h => h
  | c :: a, b, h => by
    rw [List.cons_append]
    unfold hasSegment
    rw [hasSegment_append sub a b h]
    simp

theorem mentions_append_self (a url : String) : mentions (a ++ url) url = true := by
  unfold mentions
  rw [String.data_append]
  exact hasSegment_append url.data a.data url.data (hasSegment_self url.data)

theorem mentions_httpErrorMessage (a : String) (status : Nat) (url : String) :
    mentions (a ++ httpErrorMessage status url) url = true := by
  have h : a ++ httpErrorMessage status url =
      (a ++ (toString status ++ " Error for url: ")) ++ url := by
    unfold httpErrorMessage
    simp only [String.append_assoc]
  rw [h]
  exact mentions_append_self _ _

/-- C6 counterexample: with the token-exchange POST failing at the
transport level, `parse` surfaces the raw `RequestException` — not the
`AnsibleError` wrap the claim promises for every GET/POST of the run. -/
theorem c6_post_unwrapped_counterexample :
    (parse envAllSet emptyConfig downApi 0).1 =
      Except.error (PyErr.requestException "boom") := rfl

/-- C6 (amended): every network-level error or non-2xx status on the read
GETs is wrapped into `AnsibleError` with the original message preserved,
but the token-exchange POST is not protected: a transport error there
escapes as the raw `RequestException`, and a non-success POST status is
not checked at all — the token field is extracted regardless. -/
theorem c6_get_wrapped_post_unwrapped :
    (∀ (β : Type) (msg url : String) (s : RunState),
      api_get_request (HttpOutcome.netError msg : HttpOutcome β) url s =
        (Except.error (PyErr.ansibleError ("An error occurred: " ++ msg)),
         { s with log := s.log ++ [Request.get url] }) ∧
      mentions ("An error occurred: " ++ msg) msg = true) ∧
    (∀ (β : Type) (status : Nat) (body : β) (url : String) (s : RunState),
      is2xx status = false →
      api_get_request (HttpOutcome.response status body) url s =
        (Except.error (PyErr.ansibleError
           ("An error occurred: " ++ httpErrorMessage status url)),
         { s with log := s.log ++ [Request.get url] })) ∧
    (∀ (api : Api) (now : Nat) (sa pk kid : String) (s : RunState) (msg : String),
      (∀ j, api.tokenPost j = HttpOutcome.netError msg) →
      (get_iam_token api now sa pk kid s).1 =
        Except.error (PyErr.requestException msg)) ∧
    (∀ (api : Api) (now : Nat) (sa pk kid : String) (s : RunState) (st : Nat)
       (body : TokenResp) (t : String),
      is2xx st = false →
      (∀ j, api.tokenPost j = HttpOutcome.response st body) →
      body.iamToken = some t →
      (get_iam_token api now sa pk kid s).1 = Except.ok t) := by
  refine ⟨?_, ?_, ?_, ?_⟩
  · intro β msg url s
    exact ⟨rfl, mentions_append_self _ _⟩
  · intro β status body url s h
    simp [api_get_request, h]
  · intro api now sa pk kid s msg htok
    unfold get_iam_token
    dsimp only
    rw [htok]
  · intro api now sa pk kid s st body t h2 htok hbody
    unfold get_iam_token
    dsimp only
    rw [htok]
    dsimp only
    rw [hbody]

/-- Witness for the amended C6 at concrete inputs. -/
theorem c6_get_wrapped_post_unwrapped_witness :
    api_get_request (HttpOutcome.response 503 ({ name := none } : CloudResp)) "http://u"
      { log := [], inv := Inventory.empty } =
      (Except.error (PyErr.ansibleError
         ("An error occurred: " ++ httpErrorMessage 503 "http://u")),
       { log := [Request.get "http://u"], inv := Inventory.empty }) ∧
    (get_iam_token downApi 0 "sa" "pk" "kid" { log := [], inv := Inventory.empty }).1 =
      Except.error (PyErr.requestException "boom") ∧
    (get_iam_token (Api.mk (fun _ => HttpOutcome.response 500 { iamToken := some "tok" })
        (fun _ => HttpOutcome.netError "x") (fun _ => HttpOutcome.netError "x")
        (fun _ => HttpOutcome.netError "x") (fun _ => HttpOutcome.netError "x"))
      0 "sa" "pk" "kid" { log := [], inv := Inventory.empty }).1 = Except.ok "tok" :=
  ⟨c6_get_wrapped_post_unwrapped.2.1 CloudResp 503 { name := none } "http://u"
      { log := [], inv := Inventory.empty } rfl,
   c6_get_wrapped_post_unwrapped.2.2.1 downApi 0 "sa" "pk" "kid"
      { log := [], inv := Inventory.empty } "boom" (fun _ => rfl),
   c6_get_wrapped_post_unwrapped.2.2.2
      (Api.mk (fun _ => HttpOutcome.response 500 { iamToken := some "tok" })
        (fun _ => HttpOutcome.netError "x") (fun _ => HttpOutcome.netError "x")
        (fun _ => HttpOutcome.netError "x") (fun _ => HttpOutcome.netError "x"))
      0 "sa" "pk" "kid" { log := [], inv := Inventory.empty } 500
      { iamToken := some "tok" } "tok" rfl (fun _ => rfl) rfl⟩

/-- C7: any non-2xx response on a read GET aborts with an `AnsibleError`
whose message carries the endpoint context (the failing request's URL),
leaving the state exactly as it was apart from the logged request; shown
end to end on a scenario where the instances endpoint of folder `f1`
answers 500: the run stops with the cloud and folder groups created, no
host added, folder `f2` never queried, and the surfaced message mentions
the failing instances URL. -/
theorem c7_non2xx_aborts_with_context :
    (∀ (β : Type) (status : Nat) (body : β) (url : String) (s : RunState),
      is2xx status = false →
      api_get_request (HttpOutcome.response status body) url s =
        (Except.error (PyErr.ansibleError
           ("An error occurred: " ++ httpErrorMessage status url)),
         { s with log := s.log ++ [Request.get url] }) ∧
      mentions ("An error occurred: " ++ httpErrorMessage status url) url = true) ∧
    (parse envAllSet scenarioConfig scenarioApi 0 =
      (Except.error (PyErr.ansibleError
         ("An error occurred: " ++ httpErrorMessage 500 scenarioFailingUrl)),
       { log := scenarioLog, inv := scenarioInv }) ∧
     scenarioInv.hosts = [] ∧
     mentions ("An error occurred: " ++ httpErrorMessage 500 scenarioFailingUrl)
       scenarioFailingUrl = true) := by
  constructor
  · intro β status body url s h
    constructor
    · simp [api_get_request, h]
    · exact mentions_httpErrorMessage _ _ _
  · exact ⟨rfl, rfl, mentions_httpErrorMessage _ _ _⟩

/-- Witness for C7 at a concrete non-2xx response. -/
theorem c7_non2xx_aborts_with_context_witness :
    api_get_request (HttpOutcome.response 404 ({ name := none } : FolderResp)) "http://api/f"
      { log := [], inv := Inventory.empty } =
      (Except.error (PyErr.ansibleError
         ("An error occurred: " ++ httpErrorMessage 404 "http://api/f")),
       { log := [Request.get "http://api/f"], inv := Inventory.empty }) ∧
    mentions ("An error occurred: " ++ httpErrorMessage 404 "http://api/f")
      "http://api/f" = true :=
  c7_non2xx_aborts_with_context.1 FolderResp 404 { name := none } "http://api/f"
    { log := [], inv := Inventory.empty } rfl

/-! ### No-op lemmas for existing groups and edges -/

theorem add_group_of_mem {inv : Inventory} {g : String} (h : g ∈ inv.groups) :
    inv.add_group g = inv := by
  unfold Inventory.add_group
  rw [if_pos h]

theorem add_child_of_mem {inv : Inventory} {p c : String} (h : (p, c) ∈ inv.children) :
    inv.add_child p c = inv := by
  unfold Inventory.add_child
  rw [if_pos h]

/-- C8: group creation is idempotent — repeating `create_cloud_group`,
`create_folder_group` or `create_label_group` with the same name leaves the
inventory unchanged (creating an existing group and re-adding an existing
parent/child edge are no-ops); the group list built by `parse` never holds
two groups of the same name, so duplicate cloud ids in the configuration
still yield exactly one root group per distinct sanitized display name; and
the sanitized display name of a successfully fetched cloud is indeed among
the groups. -/
theorem c8_idempotent_group_creation :
    (∀ (inv : Inventory) (n : String),
      (inv.create_cloud_group n).create_cloud_group n = inv.create_cloud_group n) ∧
    (∀ (inv : Inventory) (f c : String),
      (inv.create_folder_group f c).create_folder_group f c =
        inv.create_folder_group f c) ∧
    (∀ (inv : Inventory) (l f : String),
      (inv.create_label_group l f).create_label_group l f =
        inv.create_label_group l f) ∧
    (∀ (env : Env) (config : Config) (api : Api) (now : Nat),
      ((parse env config api now).2.inv.groups).Nodup) ∧
    (∀ (api : Api) (c : String) (rest : List String) (s : RunState) (st : Nat)
       (resp : CloudResp) (nm : String),
      api.cloudGet c = HttpOutcome.response st resp → is2xx st = true →
      resp.name = some nm →
      to_safe_group_name nm ∈ (process_clouds api (c :: rest) s).2.inv.groups) := by
  refine ⟨?_, ?_, ?_, ?_, ?_⟩
  · intro inv n
    unfold Inventory.create_cloud_group
    exact add_group_of_mem (add_group_mem_self inv n)
  · intro inv f c
    unfold Inventory.create_folder_group
    rw [add_group_of_mem (by rw [add_child_groups]; exact add_group_mem_self inv f)]
    rw [add_child_of_mem (add_child_mem_self _ _ _)]
  · intro inv l f
    unfold Inventory.create_label_group
    rw [add_group_of_mem (by rw [add_child_groups]; exact add_group_mem_self inv l)]
    rw [add_child_of_mem (add_child_mem_self _ _ _)]
  · intro env config api now
    exact parse_inv_preserve (fun v => v.groups.Nodup) (by simp [Inventory.empty])
      (fun inv g h => add_group_nodup g h)
      (fun inv p c h => by dsimp only; rw [add_child_groups]; exact h)
      (fun inv x h => by dsimp only; rw [add_host_groups]; exact h)
      (fun inv a b c h => by dsimp only; rw [set_variable_groups]; exact h)
      env config api now
  · intro api c rest s st resp nm hresp h2 hname
    unfold process_clouds
    rw [get_cloud_name_ok s hresp h2 hname]
    dsimp only
    have hgfInv := get_folders_inv api c
      { log := s.log ++ [Request.get (API_CLOUDS_URL ++ c)]
      , inv := s.inv.create_cloud_group (to_safe_group_name nm) }
    rcases hgf : get_folders api c
        { log := s.log ++ [Request.get (API_CLOUDS_URL ++ c)]
        , inv := s.inv.create_cloud_group (to_safe_group_name nm) } with ⟨r2, s2⟩
    rw [hgf] at hgfInv
    have hmem2 : to_safe_group_name nm ∈ s2.inv.groups := by
      rw [hgfInv]
      unfold Inventory.create_cloud_group
      exact add_group_mem_self _ _
    cases r2 with
    | error e => exact hmem2
    | ok folders =>
      dsimp only
      have hpf := process_folders_preserve (fun v => to_safe_group_name nm ∈ v.groups)
        (fun inv g h => add_group_groups_mono g h)
        (fun inv p cc h => by dsimp only; rw [add_child_groups]; exact h)
        (fun inv x h => by dsimp only; rw [add_host_groups]; exact h)
        (fun inv a b cc h => by dsimp only; rw [set_variable_groups]; exact h)
        api (to_safe_group_name nm) folders s2 hmem2
      rcases hpfE : process_folders api folders (to_safe_group_name nm) s2 with ⟨r3, s3⟩
      rw [hpfE] at hpf
      cases r3 with
      | error e => exact hpf
      | ok u =>
        dsimp only
        exact process_clouds_preserve (fun v => to_safe_group_name nm ∈ v.groups)
          (fun inv g h => add_group_groups_mono g h)
          (fun inv p cc h => by dsimp only; rw [add_child_groups]; exact h)
          (fun inv x h => by dsimp only; rw [add_host_groups]; exact h)
          (fun inv a b cc h => by dsimp only; rw [set_variable_groups]; exact h)
          api rest s3 hpf

/-- Witness for C8 at the concrete scenario: after processing the cloud
list `[c1, c1]` the sanitized cloud name is a group. -/
theorem c8_idempotent_group_creation_witness :
    to_safe_group_name "Prod Cloud" ∈
      (process_clouds scenarioApi ["c1", "c1"] { log := [], inv := Inventory.empty }).2.inv.groups :=
  c8_idempotent_group_creation.2.2.2.2 scenarioApi "c1" ["c1"]
    { log := [], inv := Inventory.empty } 200 { name := some "Prod Cloud" }
    "Prod Cloud" rfl rfl rfl

end YandexCloud
